import Mathlib

/-!
Verification of the NiriSetup tool (`NiriSetup.go`, the complete
idempotency-aware variant), shallowly embedded in Lean.

External effects (child processes, the filesystem, environment variables)
are modelled by explicit oracle structures passed to the embedded
functions, and by traces recording which effectful operations were
invoked.  Go strings are Lean `String`s; the few operations the program
uses from Go's `strings` package are re-defined here executably.
-/

namespace NiriSetup

/-! ## Go string operations (`strings.HasPrefix`, `strings.Contains`,
`strings.TrimSpace`, `strings.Join`, `sort.Strings`) -/

/-- Prefix test `listStartsWith s pat`: `pat` is a prefix of `s` (on character lists). -/
def listStartsWith : List Char → List Char → Bool
  | _, [] => true
  | [], _ :: _ => false
  | c :: cs, p :: ps => c == p && listStartsWith cs ps

/-- Substring test `listContainsSub s pat`: `pat` occurs as a contiguous run inside `s`. -/
def listContainsSub : List Char → List Char → Bool
  | s, pat =>
    if listStartsWith s pat then true
    else
      match s with
      | [] => false
      | _ :: cs => listContainsSub cs pat

/-- Go `strings.Contains`. -/
def goContains (s pat : String) : Bool := listContainsSub s.data pat.data

/-- Go `strings.HasPrefix`. -/
def goStartsWith (s pat : String) : Bool := listStartsWith s.data pat.data

/-- Go `strings.TrimSpace`. -/
def trimSpace (s : String) : String :=
  ⟨((s.data.dropWhile Char.isWhitespace).reverse.dropWhile Char.isWhitespace).reverse⟩

/-- Go `strings.Join(elems, "\n")`. -/
def goJoin (sep : String) (elems : List String) : String :=
  String.intercalate sep elems

/-- Byte-wise lexicographic comparison used by Go's `sort.Strings`
(identical to code-point order on the ASCII strings involved here). -/
def lexLe : List Char → List Char → Bool
  | [], _ => true
  | _ :: _, [] => false
  | a :: as, b :: bs => if a < b then true else if b < a then false else lexLe as bs

/-- String-level wrapper for `lexLe`. -/
def strLe (a b : String) : Bool := lexLe a.data b.data

/-- The comparison `strLe` as a decidable relation. -/
def strLeRel (a b : String) : Prop := strLe a b = true

instance : DecidableRel strLeRel := fun a b => instDecidableEqBool (strLe a b) true

/-- Go `sort.Strings` (ascending lexicographic sort; modelled by
insertion sort, observationally the same function). -/
def sortStrings (l : List String) : List String := l.insertionSort strLeRel

/-! ## UI data model (`model`, `appState`, messages) -/

/-- The `appState` enumeration: `menuView`, `installView`, `actionView`. -/
inductive AppState
  | menuView
  | installView
  | actionView
deriving DecidableEq, Repr

/-- The Bubble Tea `model` struct. -/
structure Model where
  state : AppState
  choices : List String
  cursor : Int
  selected : String
  logs : List String
  isProcessing : Bool
  progress : String
  actionMsg : String
deriving DecidableEq, Repr

/-- The `statusMsg` struct: a status string plus an optional error
(`err = none` models a `nil` Go error). -/
structure StatusMsg where
  status : String
  err : Option String
deriving DecidableEq, Repr

/-- A `tea.Msg` relevant to `Update`: a key event or a completion message. -/
inductive Msg
  | key (k : String)
  | status (s : StatusMsg)
deriving DecidableEq, Repr

/-- The command returned by `Update`: the embedding records which
`tea.Cmd` the Go code returns (nothing, `tea.Quit`, or one of the five
action commands). -/
inductive Cmd
  | none
  | quit
  | installNiriCmd
  | setupSystemCmd
  | configureNiriCmd
  | validateNiriConfigCmd
  | saveLogsCmd
deriving DecidableEq, Repr

/-- The fixed menu catalog from `initialModel`. -/
def menuChoices : List String :=
  ["Install Niri", "Setup System", "Configure Niri", "Validate Config", "Save Logs", "Exit"]

/-- The initial model (zero values for the remaining fields, as in Go). -/
def initialModel : Model :=
  { state := AppState.menuView, choices := menuChoices, cursor := 0,
    selected := "", logs := [], isProcessing := false, progress := "", actionMsg := "" }

/-- Go slice indexing `m.choices[m.cursor]`; total here (Go would panic
out of range, which the cursor invariant rules out). -/
def choiceAt (l : List String) (i : Int) : String := l.getD i.toNat ""

/-- The `Update` method, translated case by case from the Go `switch`.
Returns the new model and the returned `tea.Cmd`. -/
def update (m : Model) (msg : Msg) : Model × Cmd :=
  match msg with
  | Msg.key k =>
    match m.state with
    | AppState.menuView =>
      if k = "ctrl+c" ∨ k = "q" then (m, Cmd.quit)
      else if k = "up" then
        (if m.cursor > 0 then { m with cursor := m.cursor - 1 } else m, Cmd.none)
      else if k = "down" then
        (if m.cursor < (m.choices.length : Int) - 1 then { m with cursor := m.cursor + 1 } else m,
         Cmd.none)
      else if k = "enter" then
        let sel := choiceAt m.choices m.cursor
        let m' := { m with selected := sel, isProcessing := true }
        if sel = "Install Niri" then
          ({ m' with state := AppState.installView }, Cmd.installNiriCmd)
        else if sel = "Setup System" then
          ({ m' with state := AppState.installView }, Cmd.setupSystemCmd)
        else if sel = "Configure Niri" then
          ({ m' with state := AppState.actionView, actionMsg := "Configuring Niri..." },
           Cmd.configureNiriCmd)
        else if sel = "Validate Config" then
          ({ m' with state := AppState.actionView, actionMsg := "Validating Niri config..." },
           Cmd.validateNiriConfigCmd)
        else if sel = "Save Logs" then
          ({ m' with state := AppState.actionView, actionMsg := "Saving logs..." },
           Cmd.saveLogsCmd)
        else if sel = "Exit" then (m', Cmd.quit)
        else (m', Cmd.none)
      else (m, Cmd.none)
    | AppState.installView => (m, Cmd.none)
    | AppState.actionView => (m, Cmd.none)
  | Msg.status s =>
    let m' := { m with logs := m.logs ++ [s.status], isProcessing := false }
    if s.err = none ∧ m'.state = AppState.installView then
      ({ m' with state := AppState.menuView, logs := [] }, Cmd.none)
    else if s.err = none ∧ m'.state = AppState.actionView then
      ({ m' with state := AppState.menuView, actionMsg := s.status }, Cmd.none)
    else (m', Cmd.none)

/-! ## Install action (`installNiri`, `isPackageInstalled`) -/

/-- The fixed ordered package list of `installNiri`. -/
def niriPkgs : List String :=
  ["drm-kmod", "mesa-libs", "mesa-dri", "consolekit2", "dbus", "niri",
   "xwayland-satellite", "seatd", "waybar", "grim", "jq", "wofi", "alacritty",
   "pam_xdg", "fuzzel", "swaylock", "foot", "wlsunset", "swaybg", "mako", "swayidle"]

/-- Oracle for the package-manager boundary: `installed pkg` models
`pkg info pkg` exiting 0 (`isPackageInstalled`); `installResult pkg`
models `sudo pkg install -y pkg`, where `none` is success and
`some out` is a failure whose combined output was `out`. -/
structure PkgEnv where
  installed : String → Bool
  installResult : String → Option String

/-- Trace of one `installNiri` run: the accumulated per-package log
lines, the `failed` slice, and (instrumentation) the packages for which
an install command was actually invoked. -/
structure InstallTrace where
  logs : List String
  failed : List String
  invoked : List String
deriving DecidableEq, Repr

/-- One iteration of the `for _, pkg := range pkgs` loop of `installNiri`. -/
def installStep (env : PkgEnv) (t : InstallTrace) (pkg : String) : InstallTrace :=
  if env.installed pkg then
    { t with logs := t.logs ++ ["Already installed: " ++ pkg] }
  else
    match env.installResult pkg with
    | some out =>
      { logs := t.logs ++ ["Failed to install " ++ pkg ++ ": " ++ trimSpace out],
        failed := t.failed ++ [pkg],
        invoked := t.invoked ++ [pkg] }
    | none =>
      { t with logs := t.logs ++ ["Successfully installed " ++ pkg],
               invoked := t.invoked ++ [pkg] }

/-- The loop of `installNiri` over the whole package list. -/
def installTrace (env : PkgEnv) : InstallTrace :=
  niriPkgs.foldl (installStep env) ⟨[], [], []⟩

/-- The `statusMsg` returned by `installNiri`, built from the trace exactly as
in the Go code (failure summary line and error when `failed` is nonempty). -/
def installNiri (env : PkgEnv) : StatusMsg :=
  let t := installTrace env
  if t.failed.length > 0 then
    { status := goJoin "\n"
        (t.logs ++ ["\nFailed packages (" ++ toString t.failed.length ++ "): " ++
                    goJoin ", " t.failed]),
      err := some (toString t.failed.length ++ " packages failed to install") }
  else
    { status := goJoin "\n" t.logs, err := none }

/-- The single outcome line `installNiri` produces for one package. -/
def installOutcomeLine (env : PkgEnv) (pkg : String) : String :=
  if env.installed pkg then "Already installed: " ++ pkg
  else
    match env.installResult pkg with
    | some out => "Failed to install " ++ pkg ++ ": " ++ trimSpace out
    | none => "Successfully installed " ++ pkg

/-- A package counts as a hard failure when it is not already installed
and its install command fails. -/
def hardFails (env : PkgEnv) (pkg : String) : Bool :=
  !env.installed pkg && (env.installResult pkg).isSome

/-! ## Environment bootstrap (`setupEnvironment`) -/

/-- Result of `os.Stat` on the runtime directory: the path does not
exist, the stat itself failed, or it succeeded reporting an owner UID. -/
inductive StatResult
  | notExist
  | statError
  | found (uid : Nat)
deriving DecidableEq, Repr

/-- Oracle for the filesystem state `setupEnvironment` observes:
the stat outcome for the runtime directory, whether `os.Mkdir` would
succeed, and whether `info.Sys()` casts to `*syscall.Stat_t`. -/
structure EnvFS where
  stat : StatResult
  mkdirOk : Bool
  sysOk : Bool

/-- The runtime directory path `/tmp/{euid}-runtime-dir`. -/
def runtimeDir (euid : Nat) : String :=
  "/tmp/" ++ toString euid ++ "-runtime-dir"

/-- The bootstrap `setupEnvironment`, as a function from the effective UID and the
observed filesystem to either a fatal diagnostic (`log.Fatalf`) or
normal return, paired with the list of directories actually created
(path, permission bits).  `os.Setenv` touches no file and is not traced. -/
def setupEnvironment (euid : Nat) (fs : EnvFS) : Except String Unit × List (String × Nat) :=
  match fs.stat with
  | StatResult.notExist =>
    if fs.mkdirOk then (Except.ok (), [(runtimeDir euid, 0o700)])
    else (Except.error "Failed to create runtime directory", [])
  | StatResult.statError =>
    (Except.error "Failed to stat runtime directory", [])
  | StatResult.found uid =>
    if !fs.sysOk then
      (Except.error "Failed to get ownership information of runtime directory", [])
    else if uid ≠ euid then
      (Except.error ("XDG_RUNTIME_DIR '" ++ runtimeDir euid ++ "' is owned by UID " ++
                     toString uid ++ ", not our UID " ++ toString euid), [])
    else (Except.ok (), [])

/-! ## System setup action (`setupSystem`) -/

/-- Result of one `exec.Command(...).CombinedOutput()` call: the merged
output and whether the command succeeded (`err == nil`). -/
structure CmdOut where
  out : String
  ok : Bool
deriving DecidableEq, Repr

/-- State of the user's `~/.profile` file: whether `os.ReadFile` on it
succeeds, and its actual content (empty when the file is absent). -/
structure ProfileState where
  readOk : Bool
  content : String
deriving DecidableEq, Repr

/-- Oracle for everything `setupSystem` observes from the outside world. -/
structure SysEnv where
  runCmd : List String → CmdOut
  user : String
  logname : String
  homeDir : String
  euid : Nat
  profile : ProfileState
  writeOk : Bool
  driEntries : Option (List String)
  openDev : String → Option String
  -- `driEntries`: names in /dev/dri (`none` when ReadDir fails);
  -- `openDev dev`: `none` when os.Open succeeds, `some e` the error text.

/-- The four service steps of `setupSystem`'s first loop, in order. -/
def serviceSteps : List (String × List String) :=
  [("Enabling dbus service", ["sudo", "sysrc", "dbus_enable=YES"]),
   ("Starting dbus service", ["sudo", "service", "dbus", "start"]),
   ("Enabling seatd service", ["sudo", "sysrc", "seatd_enable=YES"]),
   ("Starting seatd service", ["sudo", "service", "seatd", "start"])]

/-- The log line one iteration of the service loop produces: benign
failures (output containing "already running") are not warnings. -/
def stepLog (env : SysEnv) (step : String × List String) : String :=
  let r := env.runCmd step.2
  if !r.ok then
    if !goContains r.out "already running" then "Warning: " ++ step.1 ++ ": " ++ r.out
    else step.1 ++ ": already running"
  else step.1 ++ ": OK"

/-- Step 2: add the user (from USER, falling back to LOGNAME) to the
video group. -/
def userGroupLogs (env : SysEnv) : List String :=
  let currentUser := if env.user = "" then env.logname else env.user
  if currentUser ≠ "" then
    let r := env.runCmd ["sudo", "pw", "groupmod", "video", "-m", currentUser]
    if !r.ok then ["Warning: Adding user to video group: " ++ r.out]
    else ["Added user '" ++ currentUser ++ "' to video group: OK"]
  else ["Warning: Could not determine current user for group setup"]

/-- Step 3: load the DRM kernel module, treating "already loaded" as benign. -/
def kldLogs (env : SysEnv) : List String :=
  let r := env.runCmd ["sudo", "kldload", "drm"]
  if !r.ok then
    if goContains r.out "already loaded" || goContains r.out "module already loaded" then
      ["Loading DRM kernel module: already loaded"]
    else ["Warning: Loading DRM kernel module: " ++ r.out]
  else ["Loading DRM kernel module: OK"]

/-- Step 4: persist the module to boot. -/
def persistLogs (env : SysEnv) : List String :=
  let r := env.runCmd ["sudo", "sysrc", "kld_list+=drm"]
  if !r.ok then ["Warning: Persisting DRM module to boot: " ++ r.out]
  else ["Persisting DRM module to boot: OK"]

/-- Go `filepath.Join(homeDir, ".profile")`. -/
def profilePath (homeDir : String) : String := homeDir ++ "/.profile"

/-- The export line for XDG_RUNTIME_DIR. -/
def xdgLine (euid : Nat) : String :=
  "export XDG_RUNTIME_DIR=/tmp/" ++ toString euid ++ "-runtime-dir"

/-- The full text appended by step 5 (comment line plus export line). -/
def xdgBlock (euid : Nat) : String :=
  "\n# Set XDG_RUNTIME_DIR for Wayland compositors\n" ++ xdgLine euid ++ "\n"

/-- Step 5: append the XDG_RUNTIME_DIR line to `.profile` unless the
substring check finds it.  Returns the new file state, the `profileStr`
variable as the code leaves it (after the re-read), and the log lines.
The OS error text of a failed open is elided from the warning. -/
def xdgStep (euid : Nat) (writeOk : Bool) (homeDir : String) (p : ProfileState) :
    ProfileState × String × List String :=
  let seen := if p.readOk then p.content else ""
  if !p.readOk || !goContains seen "XDG_RUNTIME_DIR" then
    if !writeOk then
      (p, seen, ["Warning: Could not write to " ++ profilePath homeDir])
    else
      let newContent := p.content ++ xdgBlock euid
      (⟨true, newContent⟩, newContent,
       ["Added XDG_RUNTIME_DIR to " ++ profilePath homeDir ++ ": OK"])
  else (p, seen, ["XDG_RUNTIME_DIR already in .profile: OK"])

/-- The export line appended by step 5b. -/
def libseatLine : String := "export LIBSEAT_BACKEND=consolekit2\n"

/-- Step 5b: append the LIBSEAT_BACKEND line unless the substring check
on `profileStr` (`seen`) finds it; `content` is the actual file content. -/
def libseatStep (writeOk : Bool) (homeDir : String) (seen content : String) :
    String × List String :=
  if !goContains seen "LIBSEAT_BACKEND" then
    if !writeOk then (content, ["Warning: Could not write to " ++ profilePath homeDir])
    else (content ++ libseatLine, ["Added LIBSEAT_BACKEND=consolekit2 to .profile: OK"])
  else (content, ["LIBSEAT_BACKEND already in .profile: OK"])

/-- The probe `findRenderDevice`: the lexicographically first `renderD*` node in
`/dev/dri`, or `""` when the directory is unreadable or no node matches. -/
def findRenderDevice (dri : Option (List String)) : String :=
  match dri with
  | none => ""
  | some entries =>
    let renderNodes := (entries.filter (fun n => goStartsWith n "renderD")).map
      (fun n => "/dev/dri/" ++ n)
    if renderNodes.length = 0 then ""
    else (sortStrings renderNodes).headD ""

/-- Step 6: probe the render device and its accessibility. -/
def renderLogs (env : SysEnv) : List String :=
  let renderDev := findRenderDevice env.driEntries
  if renderDev ≠ "" then
    ["Found DRM render device: " ++ renderDev] ++
    (match env.openDev renderDev with
     | some e =>
       ["Warning: Cannot access " ++ renderDev ++ ": " ++ e ++ " (check video group membership)"]
     | none => ["DRM render device " ++ renderDev ++ " is accessible: OK"])
  else
    ["Warning: No DRM render device found in /dev/dri/",
     "  GPU drivers may not be loaded. Check that drm and your GPU kernel module are loaded."]

/-- The five fixed trailing log lines of `setupSystem`. -/
def trailingLogs : List String :=
  ["",
   "System setup complete. You may need to log out and back in for group changes to take effect.",
   "",
   "To start niri, switch to a TTY (Ctrl+Alt+F2) and run:",
   "  LIBSEAT_BACKEND=consolekit2 ck-launch-session dbus-launch niri --session"]

/-- The complete log list of one `setupSystem` run. -/
def setupSystemLogs (env : SysEnv) : List String :=
  let x := xdgStep env.euid env.writeOk env.homeDir env.profile
  let l := libseatStep env.writeOk env.homeDir x.2.1 x.1.content
  serviceSteps.map (stepLog env) ++ userGroupLogs env ++ kldLogs env ++ persistLogs env ++
    x.2.2 ++ l.2 ++ renderLogs env ++ trailingLogs

/-- The `statusMsg` returned by `setupSystem`: the joined logs and, exactly as
in the code, always a `nil` error. -/
def setupSystem (env : SysEnv) : StatusMsg :=
  { status := goJoin "\n" (setupSystemLogs env), err := none }

/-- The `.profile` content after one `setupSystem` run (steps 5 and 5b). -/
def setupSystemProfile (env : SysEnv) : String :=
  let x := xdgStep env.euid env.writeOk env.homeDir env.profile
  (libseatStep env.writeOk env.homeDir x.2.1 x.1.content).1

/-! ## Configure action (`configureNiri`) -/

/-- Oracle for everything `configureNiri` observes. -/
structure CfgEnv where
  homeDirOk : Bool
  homeDir : String
  mkdirOk : Bool
  exeOk : Bool
  srcExistsAtExe : Bool
  srcExistsAtCwd : Bool
  srcRead : Option String
  driEntries : Option (List String)
  writeOk : Bool
  -- `srcRead`: content of the chosen source config.kdl, `none` on read error.

/-- The hardware debug block appended for a detected render device. -/
def debugBlock (renderDev : String) : String :=
  "\n// Explicitly set the DRM render device for EGL display creation.\ndebug \x7b\n    render-drm-device \"" ++
    renderDev ++ "\"\n\x7d\n"

/-- Destination path `~/.config/niri/config.kdl`. -/
def destConfigPath (homeDir : String) : String :=
  homeDir ++ "/.config/niri/config.kdl"

/-- The action `configureNiri`: returns the `statusMsg` and, when `os.WriteFile`
replaced the destination, the exact content written (`none` when the
action aborted before the write).  Error values carry a short tag in
place of the untracked Go error object. -/
def configureNiri (env : CfgEnv) : StatusMsg × Option String :=
  if !env.homeDirOk then
    ({ status := "Failed to determine home directory", err := some "homedir" }, none)
  else if !env.mkdirOk then
    ({ status := "Failed to create config directory", err := some "mkdir" }, none)
  else if !env.exeOk then
    ({ status := "Failed to determine executable path", err := some "exe" }, none)
  else if !env.srcExistsAtExe && !env.srcExistsAtCwd then
    ({ status := "config.kdl not found next to executable or in current directory",
       err := some "notfound" }, none)
  else
    match env.srcRead with
    | none => ({ status := "Failed to read source config", err := some "read" }, none)
    | some srcData =>
      let renderDev := findRenderDevice env.driEntries
      let configStr :=
        if renderDev ≠ "" ∧ goContains srcData "render-drm-device" = false then
          srcData ++ debugBlock renderDev
        else srcData
      if !env.writeOk then
        ({ status := "Failed to write config", err := some "write" }, none)
      else
        let msg := "Niri configuration copied to " ++ destConfigPath env.homeDir
        let msg := if renderDev ≠ "" then msg ++ "\nDRM render device set to: " ++ renderDev
                   else msg
        let msg := msg ++ "\n\nTo start niri, switch to a TTY (Ctrl+Alt+F2) and run:" ++
          "\n  LIBSEAT_BACKEND=consolekit2 ck-launch-session dbus-launch niri --session"
        ({ status := msg, err := none }, some configStr)

/-- The destination file content after a `configureNiri` run, given its
previous content `prev` (`os.WriteFile` truncates and replaces). -/
def destAfterConfigure (env : CfgEnv) (prev : String) : String :=
  match (configureNiri env).2 with
  | some newContent => newContent
  | none => prev

/-! ## Concrete scenarios used as witnesses and counterexamples -/

/-- A UI state is busy when it is the installing or the action view. -/
def busy (m : Model) : Prop :=
  m.state = AppState.installView ∨ m.state = AppState.actionView

/-- Feed a sequence of key messages to the model, ignoring commands. -/
def applyKeys (m : Model) (ks : List String) : Model :=
  ks.foldl (fun mm k => (update mm (Msg.key k)).1) m

/-- A model awaiting the result of the install action. -/
def busyModel : Model :=
  { initialModel with
      state := AppState.installView, selected := "Install Niri", isProcessing := true }

/-- A completion message carrying a failure. -/
def failMsg : StatusMsg :=
  { status := "1 packages failed to install", err := some "1 packages failed to install" }

/-- Package environment where the first package hard-fails and every
other package installs successfully. -/
def failFirstEnv : PkgEnv :=
  { installed := fun _ => false,
    installResult := fun p => if p = "drm-kmod" then some "boom" else none }

/-- Package environment with two packages already present and one hard
failure in the middle of the list. -/
def mixedEnv : PkgEnv :=
  { installed := fun p => p == "dbus" || p == "seatd",
    installResult := fun p => if p = "mesa-libs" then some " repo unreachable " else none }

/-- Package environment where every install succeeds. -/
def allOkEnv : PkgEnv :=
  { installed := fun p => p == "dbus", installResult := fun _ => none }

/-- System environment where the first service step fails with output
that does not match the benign pattern, and everything else succeeds. -/
def badStepEnv : SysEnv :=
  { runCmd := fun args =>
      if args = ["sudo", "sysrc", "dbus_enable=YES"] then ⟨"boom", false⟩ else ⟨"", true⟩,
    user := "alice", logname := "", homeDir := "/home/alice", euid := 1001,
    profile := ⟨true, ""⟩, writeOk := true,
    driEntries := some ["card0", "renderD129", "renderD128"],
    openDev := fun _ => none }

/-- Configure environment where every filesystem step succeeds, the
destination already exists with arbitrary content, and two render nodes
are present. -/
def okCfgEnv : CfgEnv :=
  { homeDirOk := true, homeDir := "/home/alice", mkdirOk := true, exeOk := true,
    srcExistsAtExe := true, srcExistsAtCwd := false,
    srcRead := some "input preference-no-csd\n",
    driEntries := some ["card0", "renderD129", "renderD128"],
    writeOk := true }

end NiriSetup

namespace NiriSetup

/-! ## Helper lemmas -/

/-- Key input in a busy view is a no-op returning no command. -/
theorem update_key_busy (m : Model) (k : String) (h : busy m) :
    update m (Msg.key k) = (m, Cmd.none) := by
  rcases h with h | h <;> simp [update, h]

/-- A completion message with a non-nil error only appends the status
line and clears the processing flag. -/
theorem update_status_some (m : Model) (s e : String) :
    (update m (Msg.status ⟨s, some e⟩)).1 =
      { m with logs := m.logs ++ [s], isProcessing := false } := by
  simp [update]

/-- Key sequences leave a busy model fixed. -/
theorem applyKeys_busy_fixed (m : Model) (h : busy m) (ks : List String) :
    applyKeys m ks = m := by
  induction ks with
  | nil => rfl
  | cons k ks ih =>
    show applyKeys (update m (Msg.key k)).1 ks = m
    rw [update_key_busy m k h]
    exact ih

/-! ## Claims about the UI state machine -/

/-- C9: while the UI is in a busy state (installing or action view),
every key message leaves the model unchanged and returns no command, so
`cursor`, `selected` and `state` are not mutated by any key input. -/
theorem busy_key_input_ignored (m : Model) (k : String)
    (h : m.state = AppState.installView ∨ m.state = AppState.actionView) :
    update m (Msg.key k) = (m, Cmd.none) :=
  update_key_busy m k h

theorem busy_key_input_ignored_witness :
    update busyModel (Msg.key "q") = (busyModel, Cmd.none) :=
  busy_key_input_ignored busyModel "q" (Or.inl rfl)

/-- C3 (evaluating the code at the failing input): a Result carrying a
failure, received in the installing view, leaves the UI in the
installing view instead of returning it to the menu. -/
theorem update_error_result_keeps_busy_state :
    (update busyModel (Msg.status failMsg)).1.state = AppState.installView ∧
    (update busyModel (Msg.status failMsg)).1.state ≠ AppState.menuView := by
  decide

/-- C10: after a failure Result arrives in a busy view, the state stays
in that busy view; every subsequent key message — including "q" and
"ctrl+c" — leaves the model unchanged and yields no command, so the menu
state is never reachable again through key input and no quit command is
ever produced. -/
theorem error_result_traps_busy_view (m : Model) (s e : String)
    (h : m.state = AppState.installView ∨ m.state = AppState.actionView) :
    (update m (Msg.status ⟨s, some e⟩)).1.state = m.state ∧
    ∀ ks : List String,
      applyKeys (update m (Msg.status ⟨s, some e⟩)).1 ks =
        (update m (Msg.status ⟨s, some e⟩)).1 ∧
      (applyKeys (update m (Msg.status ⟨s, some e⟩)).1 ks).state ≠ AppState.menuView ∧
      ∀ k, update (applyKeys (update m (Msg.status ⟨s, some e⟩)).1 ks) (Msg.key k) =
        (applyKeys (update m (Msg.status ⟨s, some e⟩)).1 ks, Cmd.none) := by
  have hm1 := update_status_some m s e
  have hstate : (update m (Msg.status ⟨s, some e⟩)).1.state = m.state := by rw [hm1]
  have hbusy1 : busy (update m (Msg.status ⟨s, some e⟩)).1 := by
    unfold busy
    rw [hstate]
    exact h
  refine ⟨hstate, fun ks => ?_⟩
  have hfix := applyKeys_busy_fixed _ hbusy1 ks
  refine ⟨hfix, ?_, fun k => ?_⟩
  · rw [hfix, hstate]
    rcases h with h | h <;> simp [h]
  · rw [hfix]
    exact update_key_busy _ k hbusy1

theorem error_result_traps_busy_view_witness :
    (update busyModel (Msg.status ⟨"boom", some "boom"⟩)).1.state = busyModel.state ∧
    applyKeys (update busyModel (Msg.status ⟨"boom", some "boom"⟩)).1 ["q", "ctrl+c", "up"] =
      (update busyModel (Msg.status ⟨"boom", some "boom"⟩)).1 ∧
    (applyKeys (update busyModel (Msg.status ⟨"boom", some "boom"⟩)).1
        ["q", "ctrl+c", "up"]).state ≠ AppState.menuView :=
  ⟨(error_result_traps_busy_view busyModel "boom" "boom" (Or.inl rfl)).1,
   ((error_result_traps_busy_view busyModel "boom" "boom" (Or.inl rfl)).2
      ["q", "ctrl+c", "up"]).1,
   ((error_result_traps_busy_view busyModel "boom" "boom" (Or.inl rfl)).2
      ["q", "ctrl+c", "up"]).2.1⟩

/-- In the menu, "up" decrements the cursor exactly when it is positive. -/
theorem update_menu_up (m : Model) (h : m.state = AppState.menuView) :
    (update m (Msg.key "up")).1 =
      if 0 < m.cursor then { m with cursor := m.cursor - 1 } else m := by
  by_cases hc : 0 < m.cursor <;> simp [update, h, hc]

/-- In the menu, "down" increments the cursor exactly when it is below
the last index. -/
theorem update_menu_down (m : Model) (h : m.state = AppState.menuView) :
    (update m (Msg.key "down")).1 =
      if m.cursor < (m.choices.length : Int) - 1 then { m with cursor := m.cursor + 1 }
      else m := by
  by_cases hc : m.cursor < (m.choices.length : Int) - 1 <;> simp [update, h, hc]

/-- In the menu, "enter" never changes the cursor or the choice list. -/
theorem update_menu_enter (m : Model) (h : m.state = AppState.menuView) :
    (update m (Msg.key "enter")).1.cursor = m.cursor ∧
      (update m (Msg.key "enter")).1.choices = m.choices := by
  simp only [update, h]
  split_ifs <;> simp_all

/-- In the menu, keys other than the handled five leave the model unchanged. -/
theorem update_menu_other (m : Model) (k : String) (h : m.state = AppState.menuView)
    (h1 : ¬(k = "ctrl+c" ∨ k = "q")) (h2 : k ≠ "up") (h3 : k ≠ "down")
    (h4 : k ≠ "enter") : (update m (Msg.key k)).1 = m := by
  simp [update, h, h1, h2, h3, h4]

/-- Completion messages never change the cursor or the choice list. -/
theorem update_status_cursor (m : Model) (s : StatusMsg) :
    (update m (Msg.status s)).1.cursor = m.cursor ∧
      (update m (Msg.status s)).1.choices = m.choices := by
  simp only [update]
  split_ifs <;> simp

/-- C8: in the menu state, the up key decrements the cursor only when it
is above 0 and the down key increments it only when it is below the last
index; the invariant `0 ≤ cursor ≤ len(choices) - 1` is preserved by
every update (key or completion message). -/
theorem menu_cursor_saturation (m : Model) (msg : Msg)
    (h0 : 0 ≤ m.cursor) (h1 : m.cursor ≤ (m.choices.length : Int) - 1) :
    (0 ≤ (update m msg).1.cursor ∧
      (update m msg).1.cursor ≤ ((update m msg).1.choices.length : Int) - 1) ∧
    (update m (Msg.key "up")).1.cursor =
      (if m.state = AppState.menuView ∧ 0 < m.cursor then m.cursor - 1 else m.cursor) ∧
    (update m (Msg.key "down")).1.cursor =
      (if m.state = AppState.menuView ∧ m.cursor < (m.choices.length : Int) - 1
       then m.cursor + 1 else m.cursor) := by
  refine ⟨?_, ?_, ?_⟩
  · cases msg with
    | status s =>
      obtain ⟨hc, hch⟩ := update_status_cursor m s
      rw [hc, hch]
      exact ⟨h0, h1⟩
    | key k =>
      cases hst : m.state with
      | installView =>
        rw [update_key_busy m k (Or.inl hst)]
        exact ⟨h0, h1⟩
      | actionView =>
        rw [update_key_busy m k (Or.inr hst)]
        exact ⟨h0, h1⟩
      | menuView =>
        by_cases hq : k = "ctrl+c" ∨ k = "q"
        · have : update m (Msg.key k) = (m, Cmd.quit) := by
            rcases hq with hq | hq <;> simp [update, hst, hq]
          rw [this]
          exact ⟨h0, h1⟩
        · by_cases hu : k = "up"
          · subst hu
            rw [update_menu_up m hst]
            by_cases hc : 0 < m.cursor <;> simp [hc] <;> omega
          · by_cases hd : k = "down"
            · subst hd
              rw [update_menu_down m hst]
              by_cases hc : m.cursor < (m.choices.length : Int) - 1 <;>
                simp [hc] <;> omega
            · by_cases he : k = "enter"
              · subst he
                obtain ⟨hc, hch⟩ := update_menu_enter m hst
                rw [hc, hch]
                exact ⟨h0, h1⟩
              · rw [update_menu_other m k hst hq hu hd he]
                exact ⟨h0, h1⟩
  · cases hst : m.state with
    | installView => rw [update_key_busy m "up" (Or.inl hst)]; simp [hst]
    | actionView => rw [update_key_busy m "up" (Or.inr hst)]; simp [hst]
    | menuView =>
      rw [update_menu_up m hst]
      by_cases hc : 0 < m.cursor <;> simp [hst, hc]
  · cases hst : m.state with
    | installView => rw [update_key_busy m "down" (Or.inl hst)]; simp [hst]
    | actionView => rw [update_key_busy m "down" (Or.inr hst)]; simp [hst]
    | menuView =>
      rw [update_menu_down m hst]
      by_cases hc : m.cursor < (m.choices.length : Int) - 1 <;> simp [hst, hc]

/-! ## Claims about the install action -/

/-- Characterization of the `installNiri` loop: logs are the per-package
outcome lines in list order, `failed` collects the hard failures, and an
install command is invoked exactly for the packages not already present. -/
theorem installStep_foldl (env : PkgEnv) (t : InstallTrace) (pkgs : List String) :
    pkgs.foldl (installStep env) t =
      { logs := t.logs ++ pkgs.map (installOutcomeLine env),
        failed := t.failed ++ pkgs.filter (hardFails env),
        invoked := t.invoked ++ pkgs.filter (fun p => !env.installed p) } := by
  induction pkgs generalizing t with
  | nil => simp
  | cons p ps ih =>
    rw [List.foldl_cons, ih]
    by_cases hi : env.installed p
    · simp [installStep, installOutcomeLine, hardFails, hi]
    · cases hr : env.installResult p <;>
        simp [installStep, installOutcomeLine, hardFails, hi, hr]

/-- The predicate `hardFails` unfolded to a proposition. -/
theorem hardFails_iff (env : PkgEnv) (p : String) :
    hardFails env p = true ↔ env.installed p = false ∧ (env.installResult p).isSome := by
  simp [hardFails, Bool.and_eq_true, Bool.not_eq_true']

/-- The trace of a full run, in closed form. -/
theorem installTrace_eq (env : PkgEnv) :
    installTrace env =
      { logs := niriPkgs.map (installOutcomeLine env),
        failed := niriPkgs.filter (hardFails env),
        invoked := niriPkgs.filter (fun p => !env.installed p) } := by
  unfold installTrace
  rw [installStep_foldl]
  simp

/-- The action reports an error exactly when some package hard-fails. -/
theorem installNiri_err_iff (env : PkgEnv) :
    (installNiri env).err ≠ none ↔
      ∃ p ∈ niriPkgs, env.installed p = false ∧ (env.installResult p).isSome := by
  have ht := installTrace_eq env
  have hiff : (installNiri env).err ≠ none ↔ 0 < (installTrace env).failed.length := by
    by_cases hl : (installTrace env).failed.length > 0 <;> simp [installNiri, hl]
  rw [hiff, ht]
  dsimp only
  constructor
  · intro h
    obtain ⟨p, hp⟩ := List.exists_mem_of_ne_nil _ (List.length_pos.mp h)
    rw [List.mem_filter] at hp
    exact ⟨p, hp.1, (hardFails_iff env p).mp hp.2⟩
  · rintro ⟨p, hp, hf⟩
    exact List.length_pos.mpr
      (List.ne_nil_of_mem
        (List.mem_filter.mpr ⟨hp, (hardFails_iff env p).mpr hf⟩))

/-- C1: every package yields exactly one outcome line, in list order; a
package passing the presence check is never installed and is logged as
already installed; a failing package is recorded in `failed` while
processing continues; and the action returns an error iff at least one
install command failed. -/
theorem installNiri_per_package (env : PkgEnv) :
    (installTrace env).logs = niriPkgs.map (installOutcomeLine env) ∧
    (installTrace env).invoked = niriPkgs.filter (fun p => !env.installed p) ∧
    (∀ p ∈ niriPkgs, env.installed p = true →
      p ∉ (installTrace env).invoked ∧
        ("Already installed: " ++ p) ∈ (installTrace env).logs) ∧
    (installTrace env).failed = niriPkgs.filter (hardFails env) ∧
    ((installNiri env).err ≠ none ↔
      ∃ p ∈ niriPkgs, env.installed p = false ∧ (env.installResult p).isSome) := by
  have ht := installTrace_eq env
  refine ⟨by rw [ht], by rw [ht], fun p hp hi => ⟨?_, ?_⟩, by rw [ht],
    installNiri_err_iff env⟩
  · rw [ht]
    simp [List.mem_filter, hi]
  · rw [ht]
    simp only [List.mem_map]
    exact ⟨p, hp, by simp [installOutcomeLine, hi]⟩

theorem installNiri_per_package_witness :
    ("dbus" ∈ niriPkgs ∧ mixedEnv.installed "dbus" = true) ∧
    ("dbus" ∉ (installTrace mixedEnv).invoked ∧
      ("Already installed: " ++ "dbus") ∈ (installTrace mixedEnv).logs) ∧
    (installNiri mixedEnv).err ≠ none :=
  ⟨⟨by decide, by decide⟩,
   (installNiri_per_package mixedEnv).2.2.1 "dbus" (by decide) (by decide),
   (installNiri_per_package mixedEnv).2.2.2.2.mpr
     ⟨"mesa-libs", by decide, by decide, by decide⟩⟩

/-- C5 counterexample: with the first package hard-failing, the install
action does not abort — a later package ("swayidle", last in the list)
is still installed, the log covers all 21 packages, and the failing
package is recorded. -/
theorem installNiri_no_abort_counterexample :
    failFirstEnv.installed "drm-kmod" = false ∧
    (failFirstEnv.installResult "drm-kmod").isSome ∧
    "drm-kmod" ∈ (installTrace failFirstEnv).failed ∧
    "swayidle" ∈ (installTrace failFirstEnv).invoked ∧
    (installTrace failFirstEnv).logs.length = niriPkgs.length ∧
    "Successfully installed swayidle" ∈ (installTrace failFirstEnv).logs := by
  decide

/-- C5 (amended): a hard install failure does not abort the action: the
failing package is recorded in `failed` (and hence in the failure
summary), processing continues so the log still has one line for every
package in the list, the action reports an error, and the packages
already satisfied are reported with their own lines. -/
theorem installNiri_failure_recorded_and_continues (env : PkgEnv) (p : String)
    (hp : p ∈ niriPkgs) (hni : env.installed p = false)
    (hf : (env.installResult p).isSome) :
    p ∈ (installTrace env).failed ∧
    (installTrace env).logs.length = niriPkgs.length ∧
    (installNiri env).err ≠ none ∧
    ∀ q ∈ niriPkgs, env.installed q = true →
      ("Already installed: " ++ q) ∈ (installTrace env).logs := by
  have ht := installTrace_eq env
  refine ⟨?_, ?_, ?_, fun q hq hiq => ?_⟩
  · rw [ht]
    simp only [List.mem_filter]
    exact ⟨hp, (hardFails_iff env p).mpr ⟨hni, hf⟩⟩
  · rw [ht]
    simp
  · exact (installNiri_err_iff env).mpr ⟨p, hp, hni, hf⟩
  · rw [ht]
    simp only [List.mem_map]
    exact ⟨q, hq, by simp [installOutcomeLine, hiq]⟩

theorem installNiri_failure_recorded_and_continues_witness :
    ("mesa-libs" ∈ niriPkgs ∧ mixedEnv.installed "mesa-libs" = false ∧
      (mixedEnv.installResult "mesa-libs").isSome) ∧
    "mesa-libs" ∈ (installTrace mixedEnv).failed ∧
    (installTrace mixedEnv).logs.length = niriPkgs.length ∧
    (installNiri mixedEnv).err ≠ none :=
  ⟨⟨by decide, by decide, by decide⟩,
   (installNiri_failure_recorded_and_continues mixedEnv "mesa-libs"
      (by decide) (by decide) (by decide)).1,
   (installNiri_failure_recorded_and_continues mixedEnv "mesa-libs"
      (by decide) (by decide) (by decide)).2.1,
   (installNiri_failure_recorded_and_continues mixedEnv "mesa-libs"
      (by decide) (by decide) (by decide)).2.2.1⟩

theorem menu_cursor_saturation_witness :
    (0 ≤ initialModel.cursor ∧
      initialModel.cursor ≤ (initialModel.choices.length : Int) - 1) ∧
    ((0 ≤ (update initialModel (Msg.key "up")).1.cursor ∧
        (update initialModel (Msg.key "up")).1.cursor ≤
          (((update initialModel (Msg.key "up")).1.choices.length : Int) - 1)) ∧
      (update initialModel (Msg.key "up")).1.cursor =
        (if initialModel.state = AppState.menuView ∧ 0 < initialModel.cursor
         then initialModel.cursor - 1 else initialModel.cursor) ∧
      (update initialModel (Msg.key "down")).1.cursor =
        (if initialModel.state = AppState.menuView ∧
            initialModel.cursor < (initialModel.choices.length : Int) - 1
         then initialModel.cursor + 1 else initialModel.cursor)) :=
  ⟨⟨by decide, by decide⟩,
   menu_cursor_saturation initialModel (Msg.key "up") (by decide) (by decide)⟩

/-! ## Claims about the environment bootstrap -/

/-- C2: at process start, if no directory exists at the runtime path it
is created with owner-only (0700) permissions and the bootstrap
succeeds; a pre-existing directory owned by a different UID is fatal
with a diagnostic and no file is created or modified; stat and mkdir
failures are fatal too; a matching owner is accepted with no creation. -/
theorem setupEnvironment_bootstrap (euid : Nat) (fs : EnvFS) :
    (fs.stat = StatResult.notExist → fs.mkdirOk = true →
      setupEnvironment euid fs = (Except.ok (), [(runtimeDir euid, 0o700)])) ∧
    (fs.stat = StatResult.notExist → fs.mkdirOk = false →
      setupEnvironment euid fs =
        (Except.error "Failed to create runtime directory", [])) ∧
    (∀ uid, fs.stat = StatResult.found uid → fs.sysOk = true → uid ≠ euid →
      (∃ d, (setupEnvironment euid fs).1 = Except.error d) ∧
        (setupEnvironment euid fs).2 = []) ∧
    (fs.stat = StatResult.statError →
      setupEnvironment euid fs = (Except.error "Failed to stat runtime directory", [])) ∧
    (∀ uid, fs.stat = StatResult.found uid → fs.sysOk = true → uid = euid →
      setupEnvironment euid fs = (Except.ok (), [])) := by
  refine ⟨fun h1 h2 => ?_, fun h1 h2 => ?_, fun uid h1 h2 h3 => ?_,
    fun h1 => ?_, fun uid h1 h2 h3 => ?_⟩
  · simp [setupEnvironment, h1, h2]
  · simp [setupEnvironment, h1, h2]
  · simp [setupEnvironment, h1, h2, h3]
  · simp [setupEnvironment, h1]
  · simp [setupEnvironment, h1, h2, h3]

theorem setupEnvironment_bootstrap_witness :
    setupEnvironment 1000 ⟨StatResult.notExist, true, true⟩ =
      (Except.ok (), [(runtimeDir 1000, 0o700)]) ∧
    ((∃ d, (setupEnvironment 1000 ⟨StatResult.found 0, true, true⟩).1 = Except.error d) ∧
      (setupEnvironment 1000 ⟨StatResult.found 0, true, true⟩).2 = []) :=
  ⟨(setupEnvironment_bootstrap 1000 ⟨StatResult.notExist, true, true⟩).1 rfl rfl,
   (setupEnvironment_bootstrap 1000 ⟨StatResult.found 0, true, true⟩).2.2.1 0 rfl rfl
     (by decide)⟩

/-! ## Claims about the system setup action -/

theorem userGroupLogs_length (env : SysEnv) : (userGroupLogs env).length = 1 := by
  simp only [userGroupLogs]
  split_ifs <;> rfl

theorem kldLogs_length (env : SysEnv) : (kldLogs env).length = 1 := by
  simp only [kldLogs]
  split_ifs <;> rfl

theorem persistLogs_length (env : SysEnv) : (persistLogs env).length = 1 := by
  simp only [persistLogs]
  split_ifs <;> rfl

theorem xdgStep_logs_length (euid : Nat) (w : Bool) (hd : String) (p : ProfileState) :
    (xdgStep euid w hd p).2.2.length = 1 := by
  simp only [xdgStep]
  split_ifs <;> rfl

theorem libseatStep_logs_length (w : Bool) (hd seen c : String) :
    (libseatStep w hd seen c).2.length = 1 := by
  simp only [libseatStep]
  split_ifs <;> rfl

theorem renderLogs_length (env : SysEnv) : (renderLogs env).length = 2 := by
  simp only [renderLogs]
  split_ifs
  · cases env.openDev (findRenderDevice env.driEntries) <;> rfl
  · rfl

/-- The log list `setupSystemLogs` always opens with the four service-step lines. -/
theorem setupSystemLogs_take4 (env : SysEnv) :
    (setupSystemLogs env).take 4 = serviceSteps.map (stepLog env) := by
  have h : setupSystemLogs env = serviceSteps.map (stepLog env) ++
      (userGroupLogs env ++ (kldLogs env ++ (persistLogs env ++
        ((xdgStep env.euid env.writeOk env.homeDir env.profile).2.2 ++
          ((libseatStep env.writeOk env.homeDir
              (xdgStep env.euid env.writeOk env.homeDir env.profile).2.1
              (xdgStep env.euid env.writeOk env.homeDir env.profile).1.content).2 ++
            (renderLogs env ++ trailingLogs)))))) := by
    simp [setupSystemLogs, List.append_assoc]
  rw [h]
  have h4 : (serviceSteps.map (stepLog env)).length = 4 := by simp [serviceSteps]
  rw [show (4 : Nat) = (serviceSteps.map (stepLog env)).length from h4.symm]
  exact List.take_left _ _

/-- C4 (amended): every attempted step contributes its log entry in
execution order — the four service steps are logged first, one line
each, with benign "already running" failures logged as such and other
failures logged as warnings — but the Setup System action always
returns a nil error, even when a step fails non-benignly. -/
theorem setupSystem_logs_structure (env : SysEnv) :
    (setupSystem env).err = none ∧
    (setupSystemLogs env).take 4 = serviceSteps.map (stepLog env) ∧
    (setupSystemLogs env).length = 16 ∧
    (∀ s ∈ serviceSteps, (env.runCmd s.2).ok = false →
      goContains (env.runCmd s.2).out "already running" = false →
      stepLog env s = "Warning: " ++ s.1 ++ ": " ++ (env.runCmd s.2).out) ∧
    (∀ s ∈ serviceSteps, (env.runCmd s.2).ok = false →
      goContains (env.runCmd s.2).out "already running" = true →
      stepLog env s = s.1 ++ ": already running") ∧
    (∀ s ∈ serviceSteps, (env.runCmd s.2).ok = true →
      stepLog env s = s.1 ++ ": OK") := by
  refine ⟨rfl, setupSystemLogs_take4 env, ?_, fun s _ h1 h2 => ?_, fun s _ h1 h2 => ?_,
    fun s _ h1 => ?_⟩
  · simp [setupSystemLogs, userGroupLogs_length, kldLogs_length, persistLogs_length,
      xdgStep_logs_length, libseatStep_logs_length, renderLogs_length, serviceSteps,
      trailingLogs]
  · simp [stepLog, h1, h2]
  · simp [stepLog, h1, h2]
  · simp [stepLog, h1]

theorem setupSystem_logs_structure_witness :
    (setupSystem badStepEnv).err = none ∧
    stepLog badStepEnv ("Enabling dbus service", ["sudo", "sysrc", "dbus_enable=YES"]) =
      "Warning: " ++ "Enabling dbus service" ++ ": " ++
        (badStepEnv.runCmd ["sudo", "sysrc", "dbus_enable=YES"]).out :=
  ⟨(setupSystem_logs_structure badStepEnv).1,
   (setupSystem_logs_structure badStepEnv).2.2.2.1
     ("Enabling dbus service", ["sudo", "sysrc", "dbus_enable=YES"])
     (by decide) (by decide) (by decide)⟩

/-- C4 counterexample: the first service step fails and its output does
not contain the benign substring, yet the action reports success
(`err = none`) — refuting "reports failure iff some step failed
non-benignly". The failing step is still logged as a warning. -/
theorem setupSystem_failure_not_reported :
    (badStepEnv.runCmd ["sudo", "sysrc", "dbus_enable=YES"]).ok = false ∧
    goContains (badStepEnv.runCmd ["sudo", "sysrc", "dbus_enable=YES"]).out
      "already running" = false ∧
    ("Enabling dbus service", ["sudo", "sysrc", "dbus_enable=YES"]) ∈ serviceSteps ∧
    (setupSystem badStepEnv).err = none ∧
    (setupSystemLogs badStepEnv).headD "" = "Warning: Enabling dbus service: boom" := by
  decide

/-! ## Substring lemmas for the idempotence claim -/

theorem listStartsWith_append (s t pat : List Char)
    (h : listStartsWith s pat = true) : listStartsWith (s ++ t) pat = true := by
  induction pat generalizing s with
  | nil => simp [listStartsWith]
  | cons p ps ih =>
    cases s with
    | nil => simp [listStartsWith] at h
    | cons c cs =>
      simp only [List.cons_append, listStartsWith, Bool.and_eq_true] at h ⊢
      exact ⟨h.1, ih cs h.2⟩

theorem listContainsSub_append_left (s t pat : List Char)
    (h : listContainsSub s pat = true) : listContainsSub (s ++ t) pat = true := by
  induction s with
  | nil =>
    simp only [listContainsSub] at h
    rcases pat with _ | ⟨p, ps⟩
    · cases t <;> simp [listContainsSub, listStartsWith]
    · simp [listStartsWith] at h
  | cons c cs ih =>
    rw [listContainsSub] at h
    rw [List.cons_append, listContainsSub]
    by_cases hs : listStartsWith (c :: (cs ++ t)) pat
    · simp [hs]
    · simp only [hs, if_false]
      by_cases hs0 : listStartsWith (c :: cs) pat
      · exact absurd (listStartsWith_append _ t _ hs0) (by simpa using hs)
      · simp only [hs0, if_false] at h
        exact ih h

theorem listContainsSub_append_right (s t pat : List Char)
    (h : listContainsSub t pat = true) : listContainsSub (s ++ t) pat = true := by
  induction s with
  | nil => simpa using h
  | cons c cs ih =>
    rw [List.cons_append, listContainsSub]
    by_cases hs : listStartsWith (c :: (cs ++ t)) pat
    · simp [hs]
    · simp [hs, ih]

theorem goContains_append_left (a b pat : String) (h : goContains a pat = true) :
    goContains (a ++ b) pat = true := by
  unfold goContains at h ⊢
  rw [String.data_append]
  exact listContainsSub_append_left _ _ _ h

theorem goContains_append_right (a b pat : String) (h : goContains b pat = true) :
    goContains (a ++ b) pat = true := by
  unfold goContains at h ⊢
  rw [String.data_append]
  exact listContainsSub_append_right _ _ _ h

/-- The appended XDG block always contains the checked substring. -/
theorem xdgBlock_contains (euid : Nat) :
    goContains (xdgBlock euid) "XDG_RUNTIME_DIR" = true := by
  unfold xdgBlock
  apply goContains_append_left
  apply goContains_append_left
  decide

/-- C7: the profile-line-append steps are idempotent: a second run on
the resulting profile file appends nothing, because the export line is
appended only when the substring presence check (for XDG_RUNTIME_DIR,
respectively LIBSEAT_BACKEND) fails. -/
theorem profile_append_idempotent (euid : Nat) (homeDir : String)
    (p : ProfileState) (c : String) :
    (xdgStep euid true homeDir (xdgStep euid true homeDir p).1).1 =
      (xdgStep euid true homeDir p).1 ∧
    (libseatStep true homeDir (libseatStep true homeDir c c).1
        (libseatStep true homeDir c c).1).1 =
      (libseatStep true homeDir c c).1 := by
  constructor
  · by_cases hro : p.readOk
    · by_cases hc : goContains p.content "XDG_RUNTIME_DIR"
      · have h1 : (xdgStep euid true homeDir p).1 = p := by
          simp [xdgStep, hro, hc]
        rw [h1, h1]
      · have h1 : (xdgStep euid true homeDir p).1 = ⟨true, p.content ++ xdgBlock euid⟩ := by
          simp [xdgStep, hro, hc]
        rw [h1]
        have hc2 : goContains (p.content ++ xdgBlock euid) "XDG_RUNTIME_DIR" = true :=
          goContains_append_right _ _ _ (xdgBlock_contains euid)
        simp [xdgStep, hc2]
    · have h1 : (xdgStep euid true homeDir p).1 = ⟨true, p.content ++ xdgBlock euid⟩ := by
        simp [xdgStep, hro]
      rw [h1]
      have hc2 : goContains (p.content ++ xdgBlock euid) "XDG_RUNTIME_DIR" = true :=
        goContains_append_right _ _ _ (xdgBlock_contains euid)
      simp [xdgStep, hc2]
  · by_cases hc : goContains c "LIBSEAT_BACKEND"
    · have h1 : (libseatStep true homeDir c c).1 = c := by simp [libseatStep, hc]
      rw [h1, h1]
    · have h1 : (libseatStep true homeDir c c).1 = c ++ libseatLine := by
        simp [libseatStep, hc]
      rw [h1]
      have hc2 : goContains (c ++ libseatLine) "LIBSEAT_BACKEND" = true :=
        goContains_append_right _ _ _ (by decide)
      simp [libseatStep, hc2]

/-! ## Order lemmas for the render-device choice -/

theorem lexLe_refl (a : List Char) : lexLe a a = true := by
  induction a with
  | nil => rfl
  | cons x xs ih => simp [lexLe, lt_irrefl, ih]

theorem lexLe_total (a b : List Char) : lexLe a b = true ∨ lexLe b a = true := by
  induction a generalizing b with
  | nil => left; rfl
  | cons x xs ih =>
    cases b with
    | nil => right; rfl
    | cons y ys =>
      rcases lt_trichotomy x y with h | h | h
      · left; simp [lexLe, h]
      · subst h
        rcases ih ys with h2 | h2
        · left; simp [lexLe, lt_irrefl, h2]
        · right; simp [lexLe, lt_irrefl, h2]
      · right; simp [lexLe, h]

theorem lexLe_trans (a b c : List Char) (hab : lexLe a b = true)
    (hbc : lexLe b c = true) : lexLe a c = true := by
  induction a generalizing b c with
  | nil => rfl
  | cons x xs ih =>
    cases b with
    | nil => simp [lexLe] at hab
    | cons y ys =>
      cases c with
      | nil => simp [lexLe] at hbc
      | cons z zs =>
        simp only [lexLe] at hab hbc ⊢
        rcases lt_trichotomy x y with h1 | h1 | h1
        · rcases lt_trichotomy y z with h2 | h2 | h2
          · simp [lt_trans h1 h2]
          · subst h2; simp [h1]
          · simp [asymm h2, h2] at hbc
        · subst h1
          simp only [lt_self_iff_false, if_false] at hab
          rcases lt_trichotomy x z with h2 | h2 | h2
          · simp [h2]
          · subst h2
            simp only [lt_self_iff_false, if_false] at hbc ⊢
            exact ih ys zs hab hbc
          · simp [asymm h2, h2] at hbc
        · simp [asymm h1, h1] at hab

instance : IsTotal String strLeRel :=
  ⟨fun a b => lexLe_total a.data b.data⟩

instance : IsTrans String strLeRel :=
  ⟨fun a b c => lexLe_trans a.data b.data c.data⟩

/-- The head of the sorted list is a member and a lower bound. -/
theorem sortStrings_head_min (l : List String) (hne : l ≠ []) :
    (sortStrings l).headD "" ∈ l ∧ ∀ x ∈ l, strLeRel ((sortStrings l).headD "") x := by
  have hperm := List.perm_insertionSort strLeRel l
  have hsort := List.sorted_insertionSort strLeRel l
  cases hs : sortStrings l with
  | nil =>
    exfalso
    apply hne
    rw [sortStrings] at hs
    rw [hs] at hperm
    exact hperm.symm.eq_nil
  | cons hd tl =>
    rw [sortStrings] at hs
    rw [hs] at hperm hsort
    rw [List.sorted_cons] at hsort
    constructor
    · exact hperm.mem_iff.mp (by simp [hs, sortStrings])
    · intro x hx
      have hx' : x ∈ hd :: tl := hperm.mem_iff.mpr hx
      rcases List.mem_cons.mp hx' with h | h
      · subst h
        simp only [hs, List.headD_cons]
        exact lexLe_refl _
      · simp only [hs, List.headD_cons]
        exact hsort.1 x h

/-! ## Claims about the configure action -/

/-- C6: after a successful Configure run, the destination file contains
exactly the source template, augmented with the hardware debug block iff
a render device was found and "render-drm-device" is absent from the
template; the write fully overwrites (the result is independent of the
previous destination content); and the chosen render device is the
lexicographically least matching entry of the device directory. -/
theorem configureNiri_overwrite (env : CfgEnv) (prev prev2 src : String)
    (hsrc : env.srcRead = some src) (hok : (configureNiri env).1.err = none) :
    (destAfterConfigure env prev =
      (if findRenderDevice env.driEntries ≠ "" ∧
          goContains src "render-drm-device" = false
       then src ++ debugBlock (findRenderDevice env.driEntries) else src)) ∧
    destAfterConfigure env prev = destAfterConfigure env prev2 ∧
    (∀ entries, env.driEntries = some entries →
      ∀ d, d = findRenderDevice env.driEntries → d ≠ "" →
        d ∈ (entries.filter (fun n => goStartsWith n "renderD")).map
            (fun n => "/dev/dri/" ++ n) ∧
          ∀ p ∈ (entries.filter (fun n => goStartsWith n "renderD")).map
              (fun n => "/dev/dri/" ++ n), strLeRel d p) := by
  have hh : env.homeDirOk = true := by
    by_cases h : env.homeDirOk
    · exact h
    · simp [configureNiri, h] at hok
  have hm : env.mkdirOk = true := by
    by_cases h : env.mkdirOk
    · exact h
    · simp [configureNiri, hh, h] at hok
  have he : env.exeOk = true := by
    by_cases h : env.exeOk
    · exact h
    · simp [configureNiri, hh, hm, h] at hok
  have hsx : (!env.srcExistsAtExe && !env.srcExistsAtCwd) = false := by
    by_cases h : (!env.srcExistsAtExe && !env.srcExistsAtCwd) = true
    · simp [configureNiri, hh, hm, he, h] at hok
    · simpa using h
  have hw : env.writeOk = true := by
    by_cases h : env.writeOk
    · exact h
    · simp [configureNiri, hh, hm, he, hsx, hsrc, h] at hok
  have hdest : (configureNiri env).2 =
      some (if findRenderDevice env.driEntries ≠ "" ∧
          goContains src "render-drm-device" = false
        then src ++ debugBlock (findRenderDevice env.driEntries) else src) := by
    simp [configureNiri, hh, hm, he, hsx, hsrc, hw]
  refine ⟨by simp [destAfterConfigure, hdest], by simp [destAfterConfigure, hdest],
    fun entries hentries d hd hdne => ?_⟩
  rw [hd, hentries]
  rw [hd, hentries] at hdne
  simp only [findRenderDevice] at hdne ⊢
  by_cases hlen : ((entries.filter (fun n => goStartsWith n "renderD")).map
      (fun n => "/dev/dri/" ++ n)).length = 0
  · simp [hlen] at hdne
  · simp only [hlen, if_false]
    have hne : (entries.filter (fun n => goStartsWith n "renderD")).map
        (fun n => "/dev/dri/" ++ n) ≠ [] := by
      intro h0
      exact hlen (by rw [h0]; rfl)
    exact sortStrings_head_min _ hne

theorem configureNiri_overwrite_witness :
    okCfgEnv.srcRead = some "input preference-no-csd\n" ∧
    (configureNiri okCfgEnv).1.err = none ∧
    destAfterConfigure okCfgEnv "OLD CONTENT" = destAfterConfigure okCfgEnv "other" ∧
    "/dev/dri/renderD128" ∈
      ((["card0", "renderD129", "renderD128"].filter
          (fun n => goStartsWith n "renderD")).map (fun n => "/dev/dri/" ++ n)) :=
  ⟨rfl, rfl,
   (configureNiri_overwrite okCfgEnv "OLD CONTENT" "other" "input preference-no-csd\n"
      rfl rfl).2.1,
   ((configureNiri_overwrite okCfgEnv "OLD CONTENT" "other" "input preference-no-csd\n"
      rfl rfl).2.2 ["card0", "renderD129", "renderD128"] rfl "/dev/dri/renderD128"
      (by decide) (by decide)).1⟩

end NiriSetup
